import Mathlib

/-!
Shallow embedding of the Lead-stitcher identity-resolution and attribution
engine (backend matching service: `findMatchingStitches`, `pickBestCandidate`,
`createNewStitch`, `linkRowToStitch`, `recomputeAttribution`,
`checkUsageLimit`, `runMatch`) and of the policy-document validator
(`validatePolicyYaml` from the policies route).

Modelling conventions, stated once:
* Database tables become Lean lists held in a `DB` record; SQL filters become
  `List.filter`, joins become `flatMap`, and `ORDER BY` becomes a stable
  insertion sort.
* Nullable text columns and optional string fields are modelled as `String`,
  with `""` standing for SQL `NULL` / JS `undefined`.  Every use the engine
  makes of these fields goes through JavaScript truthiness (`x || d`,
  `if (x) ...`), for which `""` and `null` behave identically.
* Timestamps are milliseconds since the epoch as `Int` (the engine only ever
  calls `getTime()` and subtracts); money and policy weights are `Rat`
  (the columns are SQL `numeric`, weights come from a YAML document).
* The external `jaroWinkler` string-similarity function (npm package
  `natural`, not part of this repository) is an explicit parameter `jw` of
  the candidate generator; every theorem below is universally quantified
  over it.
* The `ulid()` value stored in the `stitch_id` varchar column is an opaque
  random identifier that the engine never reads back; it is omitted from the
  `Lead` record (the serial primary key `id` is what links refer to).
* `checkUsageLimit` queries the account's usage-counter row whose period lies
  inside the current calendar month.  The wall clock is abstracted away: the
  `usage` association list maps an account id to the `stitched_count` of that
  current-period row, and an absent entry models "no usage-counter row whose
  period falls within the current month".  The increment in `runMatch` uses
  only the account id in its `WHERE` clause, exactly as the source does.
-/

namespace LeadStitcher

/-- One row of `normalized_rows`: a canonical interaction record.
`""` encodes an absent (NULL) text field; `amount = 0` encodes an absent
amount (the engine computes `Number(amount) || 0`).  The `original` jsonb
payload is never read by the engine and is omitted. -/
structure NormRow where
  id : Nat
  accountId : Nat
  uploadId : Nat
  sourceType : String
  occurredAt : Int
  name : String
  phone : String
  email : String
  gclid : String
  clientId : String
  utmSource : String
  utmMedium : String
  utmCampaign : String
  landingPage : String
  location : String
  durationSec : Nat
  amount : Rat
  externalId : String
  deriving Repr, DecidableEq

/-- One row of `stitched_leads`: a resolved lead ("stitch"). -/
structure Lead where
  id : Nat
  accountId : Nat
  leadCreatedAt : Int
  name : String
  phone : String
  email : String
  location : String
  revenue : Rat
  confidence : Rat
  finalChannel : String
  finalSource : String
  finalMedium : String
  finalCampaign : String
  firstTouchSource : String
  lastTouchSource : String
  paidLastSource : String
  deriving Repr, DecidableEq

/-- One row of `stitch_links`: the evidence join between a normalized row and
a stitched lead. -/
structure Link where
  accountId : Nat
  stitchId : Nat
  normalizedRowId : Nat
  matchPass : String
  matchedKeys : List String
  reason : String
  deriving Repr, DecidableEq

/-- One row of `audit_trail`, mirrored 1:1 with each link. -/
structure AuditEntry where
  accountId : Nat
  stitchId : Nat
  sourceFile : String
  originalRowId : Nat
  matchedKeys : List String
  matchPass : String
  reason : String
  deriving Repr, DecidableEq

/-- The five attribution modes of the policy document
(`'paid_last' | 'first_touch' | 'last_touch' | 'call_first' | 'equal_weight'`). -/
inductive AttributionMode where
  | paid_last
  | first_touch
  | last_touch
  | call_first
  | equal_weight
  deriving Repr, DecidableEq

/-- Per-pass day windows of the policy (`windows` map). -/
structure PolicyWindows where
  phone_exact : Rat
  email_exact : Rat
  click_chain : Rat
  fuzzy_match : Rat
  deriving Repr, DecidableEq

/-- Per-pass weights of the policy (`weights` map). -/
structure PolicyWeights where
  phone_exact : Rat
  email_exact : Rat
  click_chain : Rat
  fuzzy_match : Rat
  deriving Repr, DecidableEq

/-- Confidence values per evidence-strength category (`confidence_rules`). -/
structure ConfidenceRules where
  two_deterministic : Rat
  one_deterministic : Rat
  click_only : Rat
  fuzzy_only : Rat
  deriving Repr, DecidableEq

/-- The typed policy configuration (`PolicyConfig` interface). -/
structure PolicyConfig where
  name : String
  attribution_mode : AttributionMode
  windows : PolicyWindows
  weights : PolicyWeights
  tie_breakers : List String
  confidence_rules : ConfidenceRules
  deriving Repr, DecidableEq

/-- A match candidate produced by the candidate generator
(`MatchCandidate` interface). -/
structure MatchCandidate where
  stitchId : Nat
  weight : Rat
  pass : String
  matchedOn : List String
  reason : String
  confidence : Rat
  deriving Repr, DecidableEq

/-- The job summary returned by `runMatch` (`MatchResult` interface;
`stitchedNew` is the newly-created-lead count). -/
structure MatchResult where
  stitchedNew : Nat
  linksCreated : Nat
  errors : List String
  deriving Repr, DecidableEq

/-- The engine-visible database state.  `usage` is an association list from
account id to the `stitched_count` of that account's usage-counter row for
the current period (`none`/absent = no such row). -/
structure DB where
  rows : List NormRow
  leads : List Lead
  links : List Link
  audit : List AuditEntry
  usage : List (Nat × Nat)
  nextLeadDbId : Nat
  deriving Repr, DecidableEq

/-- JavaScript `x || d` on strings: `""` (and `null`, which `""` encodes)
falls through to the default. -/
def jsOr (s d : String) : String :=
  if s = "" then d else s

/-- JavaScript `toLowerCase()`: characterwise lowering of the string data
(kept structurally recursive so that the kernel can evaluate it). -/
def jsToLowerCase (s : String) : String :=
  ⟨s.data.map Char.toLower⟩

/-- JavaScript `trim()`: strip whitespace from both ends. -/
def jsTrim (s : String) : String :=
  ⟨((s.data.dropWhile Char.isWhitespace).reverse.dropWhile Char.isWhitespace).reverse⟩

/-- `isWithinWindow` from the matcher: the absolute difference of the two
timestamps in milliseconds, divided by `1000*60*60*24`, is at most
`windowDays`.  The quotient of the integer difference by the integer
`1000*60*60*24` is formed with `Rat.divInt` (the definition of rational
division by a nonzero integer); exact rational arithmetic replaces JS float
division. -/
def isWithinWindow (date1 date2 : Int) (windowDays : Rat) : Bool :=
  Rat.divInt ((date1 - date2).natAbs : Int) (1000 * 60 * 60 * 24) ≤ windowDays

/-- `calculateSimilarity`: guard empty strings to 0, otherwise Jaro-Winkler
on the lower-cased strings.  `jw` is the external similarity function. -/
def calculateSimilarity (jw : String → String → Rat) (str1 str2 : String) : Rat :=
  if str1 = "" ∨ str2 = "" then 0 else jw (jsToLowerCase str1) (jsToLowerCase str2)

/-- `calculateHammingDistance`: positionwise mismatch count for equal-length
strings, `max` of the lengths otherwise. -/
def calculateHammingDistance (str1 str2 : String) : Nat :=
  if str1.length ≠ str2.length then max str1.length str2.length
  else ((str1.toList.zip str2.toList).filter (fun p => p.1 ≠ p.2)).length

/-- JavaScript `haystack.includes(needle)`: substring containment. -/
def strIncludes (haystack needle : String) : Bool :=
  (List.range (haystack.toList.length + 1)).any
    (fun i => needle.toList.isPrefixOf (haystack.toList.drop i))

/-- The matching keys of a row (`generateMatchingKeys`): each key is present
exactly when the corresponding field is truthy (non-empty). -/
structure MatchKeys where
  phone : Option String
  email : Option String
  gclid : Option String
  clientId : Option String
  fuzzy : Option String
  deriving Repr, DecidableEq

/-- `generateMatchingKeys` from the matcher. -/
def generateMatchingKeys (row : NormRow) : MatchKeys where
  phone := if row.phone = "" then none else some row.phone
  email := if row.email = "" then none else some row.email
  gclid := if row.gclid = "" then none else some row.gclid
  clientId := if row.clientId = "" then none else some row.clientId
  fuzzy :=
    if row.name = "" ∨ row.location = "" then none
    else some (jsTrim (jsToLowerCase row.name) ++ "_" ++ jsTrim (jsToLowerCase row.location))

/-- Per-lead body of the P1 loop in `findMatchingStitches`: given a lead that
already passed the SQL filter (same account, identical phone), emit a P1
candidate when the event time is within `windows.phone_exact` days of the
lead's creation time. -/
def p1CandidateFor (row : NormRow) (policy : PolicyConfig) (phoneKey : String)
    (m : Lead) : Option MatchCandidate :=
  if isWithinWindow row.occurredAt m.leadCreatedAt policy.windows.phone_exact then
    some { stitchId := m.id, weight := policy.weights.phone_exact, pass := "P1",
           matchedOn := ["phone"],
           reason := "Phone exact match: " ++ phoneKey,
           confidence := policy.confidence_rules.one_deterministic }
  else none

/-- The P1 (phone-exact) pass: SQL filter on account id and identical phone,
then the per-lead window check. -/
def p1Candidates (st : DB) (row : NormRow) (policy : PolicyConfig)
    (accountId : Nat) : List MatchCandidate :=
  match (generateMatchingKeys row).phone with
  | none => []
  | some phoneKey =>
      ((st.leads.filter (fun l => decide (l.accountId = accountId ∧ l.phone = phoneKey))).filterMap
        (p1CandidateFor row policy phoneKey))

/-- Per-lead body of the P2 loop: window check against `windows.email_exact`. -/
def p2CandidateFor (row : NormRow) (policy : PolicyConfig) (emailKey : String)
    (m : Lead) : Option MatchCandidate :=
  if isWithinWindow row.occurredAt m.leadCreatedAt policy.windows.email_exact then
    some { stitchId := m.id, weight := policy.weights.email_exact, pass := "P2",
           matchedOn := ["email"],
           reason := "Email exact match: " ++ emailKey,
           confidence := policy.confidence_rules.one_deterministic }
  else none

/-- The P2 (email-exact) pass. -/
def p2Candidates (st : DB) (row : NormRow) (policy : PolicyConfig)
    (accountId : Nat) : List MatchCandidate :=
  match (generateMatchingKeys row).email with
  | none => []
  | some emailKey =>
      ((st.leads.filter (fun l => decide (l.accountId = accountId ∧ l.email = emailKey))).filterMap
        (p2CandidateFor row policy emailKey))

/-- The P3 (click-chain) pass: `normalized_rows ⋈ stitch_links` on the row id,
restricted to the account and to rows sharing the click key (`gclid` takes
priority over `client_id`), then the per-match window check. -/
def p3Candidates (st : DB) (row : NormRow) (policy : PolicyConfig)
    (accountId : Nat) : List MatchCandidate :=
  let keys := generateMatchingKeys row
  let clickKey? := match keys.gclid with
    | some g => some g
    | none => keys.clientId
  match clickKey? with
  | none => []
  | some clickKey =>
      let clickMatches : List (Nat × Int) :=
        st.rows.flatMap (fun r =>
          if decide (r.accountId = accountId) &&
             (if keys.gclid.isSome then decide (r.gclid = clickKey)
              else decide (r.clientId = clickKey)) then
            (st.links.filter (fun l => decide (l.normalizedRowId = r.id))).map
              (fun l => (l.stitchId, r.occurredAt))
          else [])
      clickMatches.filterMap (fun m =>
        if isWithinWindow row.occurredAt m.2 policy.windows.click_chain then
          some { stitchId := m.1, weight := policy.weights.click_chain, pass := "P3",
                 matchedOn := [if keys.gclid.isSome then "gclid" else "client_id"],
                 reason := "Click chain match: " ++ clickKey,
                 confidence := policy.confidence_rules.click_only }
        else none)

/-- Per-lead body of the P4 loop: window check, Jaro-Winkler name-similarity
threshold 0.88, bidirectional case-insensitive location containment, and the
Hamming phone check when both sides have a phone.  The reason string drops
the `toFixed(2)` rendering of the similarity (pure formatting). -/
def p4CandidateFor (jw : String → String → Rat) (row : NormRow)
    (policy : PolicyConfig) (m : Lead) : Option MatchCandidate :=
  if m.name = "" ∨ m.location = "" then none
  else if ¬ isWithinWindow row.occurredAt m.leadCreatedAt policy.windows.fuzzy_match then
    none
  else
    let nameSimilarity := calculateSimilarity jw row.name m.name
    if nameSimilarity < Rat.divInt 88 100 then none
    else
      let locationMatch :=
        strIncludes (jsToLowerCase row.location) (jsToLowerCase m.location) ||
        strIncludes (jsToLowerCase m.location) (jsToLowerCase row.location)
      if ¬ locationMatch then none
      else
        let phoneMatch :=
          if row.phone ≠ "" ∧ m.phone ≠ "" then
            calculateHammingDistance row.phone m.phone ≤ 1
          else true
        if phoneMatch then
          some { stitchId := m.id, weight := policy.weights.fuzzy_match, pass := "P4",
                 matchedOn := ["name", "location"],
                 reason := "Fuzzy match: name similarity, location match",
                 confidence := policy.confidence_rules.fuzzy_only }
        else none

/-- The P4 (fuzzy) pass: SQL filter on account id and non-NULL name/location,
then the per-lead checks. -/
def p4Candidates (jw : String → String → Rat) (st : DB) (row : NormRow)
    (policy : PolicyConfig) (accountId : Nat) : List MatchCandidate :=
  if ((generateMatchingKeys row).fuzzy.isSome ∧ row.name ≠ "" ∧ row.location ≠ "") then
    ((st.leads.filter (fun l =>
        decide (l.accountId = accountId ∧ l.name ≠ "" ∧ l.location ≠ ""))).filterMap
      (p4CandidateFor jw row policy))
  else []

/-- `findMatchingStitches`: the four passes in order, concatenated. -/
def findMatchingStitches (jw : String → String → Rat) (st : DB) (row : NormRow)
    (policy : PolicyConfig) (accountId : Nat) : List MatchCandidate :=
  p1Candidates st row policy accountId ++
  p2Candidates st row policy accountId ++
  p3Candidates st row policy accountId ++
  p4Candidates jw st row policy accountId

/-- Stable insertion of a candidate into a weight-descending list: the new
element goes after every element of weight ≥ its own, which is exactly the
order produced by JavaScript's stable `Array.sort((a, b) => b.weight - a.weight)`. -/
def insertWeightDesc (c : MatchCandidate) : List MatchCandidate → List MatchCandidate
  | [] => [c]
  | d :: ds => if d.weight < c.weight then c :: d :: ds else d :: insertWeightDesc c ds

/-- Stable weight-descending sort of the candidate list. -/
def sortByWeightDesc (candidates : List MatchCandidate) : List MatchCandidate :=
  candidates.foldl (fun acc c => insertWeightDesc c acc) []

/-- The tie-breaker loop of `pickBestCandidate`.  `call_over_form` returns the
leading candidate when the event's source type is `calls`, `form_over_call`
when it is `forms`; the `latest_event_time`, `longer_call_duration` and
`higher_revenue` cases of the source are no-ops (their bodies only contain
comments), and unknown rule names fall through.  After the loop the leading
candidate is returned anyway. -/
def tieBreakLoop (row : NormRow) (c0 : MatchCandidate) :
    List String → MatchCandidate
  | [] => c0
  | tb :: rest =>
    if tb = "call_over_form" then
      (if row.sourceType = "calls" then c0 else tieBreakLoop row c0 rest)
    else if tb = "form_over_call" then
      (if row.sourceType = "forms" then c0 else tieBreakLoop row c0 rest)
    else tieBreakLoop row c0 rest

/-- `pickBestCandidate`: none on an empty list, the sole element on a
singleton; otherwise sort by weight descending, return the head outright when
its weight is strictly greater than the runner-up's, and run the tie-breaker
loop otherwise. -/
def pickBestCandidate (candidates : List MatchCandidate) (policy : PolicyConfig)
    (row : NormRow) : Option MatchCandidate :=
  match candidates with
  | [] => none
  | [c] => some c
  | _ :: _ :: _ =>
    match sortByWeightDesc candidates with
    | [] => none
    | [c0] => some c0
    | c0 :: c1 :: _ =>
      if c1.weight < c0.weight then some c0
      else some (tieBreakLoop row c0 policy.tie_breakers)

/-- `createNewStitch`: insert a new `stitched_leads` row seeded from the
event's fields (revenue `amount || 0`, confidence 1.0) and return its serial
id.  The random `ulid()` stored in the opaque `stitch_id` column is omitted
(see the header). -/
def createNewStitch (st : DB) (row : NormRow) (accountId : Nat) : DB × Nat :=
  let lead : Lead :=
    { id := st.nextLeadDbId, accountId := accountId,
      leadCreatedAt := row.occurredAt,
      name := row.name, phone := row.phone, email := row.email,
      location := row.location, revenue := row.amount, confidence := 1,
      finalChannel := "", finalSource := "", finalMedium := "",
      finalCampaign := "", firstTouchSource := "", lastTouchSource := "",
      paidLastSource := "" }
  ({ st with leads := st.leads ++ [lead], nextLeadDbId := st.nextLeadDbId + 1 },
   st.nextLeadDbId)

/-- `linkRowToStitch`: insert one `stitch_links` row and one mirrored
`audit_trail` row (`matchPass = candidate?.pass || 'NEW'`, reason
`candidate?.reason || 'New lead created'`, source file `upload_<uploadId>`). -/
def linkRowToStitch (st : DB) (row : NormRow) (stitchDbId : Nat)
    (candidate : Option MatchCandidate) : DB :=
  let pass := jsOr ((candidate.map (fun c => c.pass)).getD "") "NEW"
  let keys := (candidate.map (fun c => c.matchedOn)).getD []
  let reason := jsOr ((candidate.map (fun c => c.reason)).getD "") "New lead created"
  let link : Link :=
    { accountId := row.accountId, stitchId := stitchDbId,
      normalizedRowId := row.id, matchPass := pass, matchedKeys := keys,
      reason := reason }
  let entry : AuditEntry :=
    { accountId := row.accountId, stitchId := stitchDbId,
      sourceFile := "upload_" ++ toString row.uploadId,
      originalRowId := row.id, matchedKeys := keys, matchPass := pass,
      reason := reason }
  { st with links := st.links ++ [link], audit := st.audit ++ [entry] }

/-- Stable insertion of a row into an `occurredAt`-ascending list (the model
of SQL `ORDER BY occurred_at`). -/
def insertRowAsc (r : NormRow) : List NormRow → List NormRow
  | [] => [r]
  | x :: xs => if r.occurredAt < x.occurredAt then r :: x :: xs else x :: insertRowAsc r xs

/-- Stable ascending sort of rows by `occurredAt`. -/
def sortRowsAsc (rows : List NormRow) : List NormRow :=
  rows.foldl (fun acc r => insertRowAsc r acc) []

/-- The rows linked to a stitch, as selected by `recomputeAttribution`:
`normalized_rows ⋈ stitch_links` on the row id, restricted to links of this
stitch, ordered by occurrence time ascending. -/
def linkedRowsFor (st : DB) (stitchDbId : Nat) : List NormRow :=
  sortRowsAsc
    (st.rows.flatMap (fun r =>
      (st.links.filter (fun l =>
        decide (l.normalizedRowId = r.id ∧ l.stitchId = stitchDbId))).map
        (fun _ => r)))

/-- The paid-medium test of the attribution pass:
`row.utmMedium && ['cpc','paid','ppc'].includes(row.utmMedium.toLowerCase())`. -/
def isPaidMedium (m : String) : Bool :=
  m ≠ "" && (jsToLowerCase m = "cpc" || jsToLowerCase m = "paid" || jsToLowerCase m = "ppc")

/-- The `paid_last` scan of `recomputeAttribution`, already given the linked
rows latest-first: the first row with a paid medium supplies
`utmSource || 'paid'`; the initial value `''` survives when none exists. -/
def paidLastScan : List NormRow → String
  | [] => ""
  | r :: rest => if isPaidMedium r.utmMedium then jsOr r.utmSource "paid" else paidLastScan rest

/-- The channel computed from the final medium at the end of
`recomputeAttribution`. -/
def channelOfMedium (finalMedium : String) : String :=
  if finalMedium ≠ "" then
    let medium := jsToLowerCase finalMedium
    if medium = "cpc" || medium = "ppc" || medium = "paid" then "paid_search"
    else if medium = "social" || medium = "facebook" || medium = "linkedin" then "social"
    else if medium = "email" then "email"
    else if medium = "organic" then "organic_search"
    else "other"
  else "direct"

/-- The attribution fields `recomputeAttribution` writes back, computed from
a non-empty linked-row list given ascending (`linkedRows`) with its first row
(`firstRow`) and latest row (`lastRow`).  The source's `switch` over
`attribution_mode` has cases for `first_touch`, `last_touch`, `paid_last`
and `call_first` only; `equal_weight` hits no case and leaves the
initializers `''` in place.  Returns
(finalSource, finalMedium, finalCampaign, finalChannel, firstTouchSource,
lastTouchSource, paidLastSource, totalRevenue). -/
def attributionFields (policy : PolicyConfig) (linkedRows : List NormRow)
    (firstRow lastRow : NormRow) :
    String × String × String × String × String × String × String × Rat :=
  let firstTouchSource := jsOr firstRow.utmSource "direct"
  let lastTouchSource := jsOr lastRow.utmSource "direct"
  let paidLastSource := paidLastScan linkedRows.reverse
  let (finalSource, finalMedium, finalCampaign) :=
    match policy.attribution_mode with
    | .first_touch => (firstTouchSource, firstRow.utmMedium, firstRow.utmCampaign)
    | .last_touch => (lastTouchSource, lastRow.utmMedium, lastRow.utmCampaign)
    | .paid_last =>
      if paidLastSource ≠ "" then
        match linkedRows.reverse.find? (fun (r : NormRow) =>
            decide (r.utmSource = paidLastSource) && isPaidMedium r.utmMedium) with
        | some paidRow => (paidRow.utmSource, paidRow.utmMedium, paidRow.utmCampaign)
        | none => ("", "", "")
      else (lastTouchSource, lastRow.utmMedium, lastRow.utmCampaign)
    | .call_first =>
      match linkedRows.find? (fun (r : NormRow) => decide (r.sourceType = "calls")) with
      | some callRow =>
          (jsOr callRow.utmSource "phone", jsOr callRow.utmMedium "call",
           callRow.utmCampaign)
      | none => (lastTouchSource, lastRow.utmMedium, lastRow.utmCampaign)
    | .equal_weight => ("", "", "")
  let finalChannel := channelOfMedium finalMedium
  let totalRevenue := linkedRows.foldl (fun (sum : Rat) (r : NormRow) => sum + r.amount) 0
  (finalSource, finalMedium, finalCampaign, finalChannel, firstTouchSource,
   lastTouchSource, paidLastSource, totalRevenue)

/-- `recomputeAttribution`: pull the linked rows ordered ascending; no-op when
none; otherwise compute the attribution summary and update every
`stitched_leads` row with this serial id. -/
def recomputeAttribution (st : DB) (stitchDbId : Nat) (policy : PolicyConfig) : DB :=
  let linkedRows := linkedRowsFor st stitchDbId
  match linkedRows.reverse with
  | [] => st
  | lastRow :: _ =>
    let firstRow := linkedRows.headD lastRow
    let f := attributionFields policy linkedRows firstRow lastRow
    { st with
      leads := st.leads.map (fun l =>
        if l.id = stitchDbId then
          { l with finalSource := f.1, finalMedium := f.2.1,
                   finalCampaign := f.2.2.1, finalChannel := f.2.2.2.1,
                   firstTouchSource := f.2.2.2.2.1,
                   lastTouchSource := f.2.2.2.2.2.1,
                   paidLastSource := f.2.2.2.2.2.2.1,
                   revenue := f.2.2.2.2.2.2.2 }
        else l) }

/-- The hard-coded monthly limit of `checkUsageLimit` (the source uses a
placeholder constant of 250 in place of the subscription plan's limit). -/
def monthlyLimit : Nat := 250

/-- First usage-counter entry for an account (the `LIMIT 1` query of
`checkUsageLimit`, restricted to the current period — see the header). -/
def findUsage (usage : List (Nat × Nat)) (accountId : Nat) : Option Nat :=
  (usage.find? (fun p => decide (p.1 = accountId))).map (fun p => p.2)

/-- The usage-counter increment of `runMatch`: `stitched_count + 1` on every
usage-counter row of the account (the `WHERE` clause carries only the
account id). -/
def incUsage (usage : List (Nat × Nat)) (accountId : Nat) : List (Nat × Nat) :=
  usage.map (fun p => if p.1 = accountId then (p.1, p.2 + 1) else p)

/-- `checkUsageLimit`: error when the account has no usage-counter row for
the current period, or when its count has reached the monthly limit. -/
def checkUsageLimit (st : DB) (accountId : Nat) : Except String Unit :=
  match findUsage st.usage accountId with
  | none => .error "Usage counter not found"
  | some currentUsage =>
    if currentUsage ≥ monthlyLimit then
      .error ("Monthly limit of " ++ toString monthlyLimit ++ " stitched leads exceeded")
    else .ok ()

/-- The body of the per-row loop of `runMatch`: usage check, candidate
generation, resolution, creation+increment or direct linking, link and audit
insertion, attribution recomputation.  Returns the updated state and whether
a new stitch was created.  The only throw sites are those of
`checkUsageLimit`, which runs before anything else. -/
def processRow (jw : String → String → Rat) (st : DB) (policy : PolicyConfig)
    (row : NormRow) (accountId : Nat) : Except String (DB × Bool) := do
  match checkUsageLimit st accountId with
  | .error e => .error e
  | .ok _ =>
    let candidates := findMatchingStitches jw st row policy accountId
    let winner := pickBestCandidate candidates policy row
    let (st1, stitchDbId, created) :=
      match winner with
      | some w => (st, w.stitchId, false)
      | none =>
        let (st', newId) := createNewStitch st row accountId
        ({ st' with usage := incUsage st'.usage accountId }, newId, true)
    let st2 := linkRowToStitch st1 row stitchDbId winner
    let st3 := recomputeAttribution st2 stitchDbId policy
    .ok (st3, created)

/-- The rows a match job processes: the account's normalized rows whose
upload id is in the requested list, ordered by occurrence time ascending
(cross-batch merge). -/
def matchRows (st : DB) (accountId : Nat) (uploadIds : List Nat) : List NormRow :=
  sortRowsAsc (st.rows.filter (fun r =>
    decide (r.accountId = accountId ∧ r.uploadId ∈ uploadIds)))

/-- One step of the `runMatch` loop: on success bump the counters, on error
append `Failed to process row <id>: <message>` and continue with the
unchanged state. -/
def runMatchStep (jw : String → String → Rat) (policy : PolicyConfig)
    (accountId : Nat) (acc : DB × MatchResult) (row : NormRow) : DB × MatchResult :=
  match processRow jw acc.1 policy row accountId with
  | .ok (st', created) =>
      (st', { acc.2 with
              stitchedNew := acc.2.stitchedNew + (if created then 1 else 0),
              linksCreated := acc.2.linksCreated + 1 })
  | .error msg =>
      (acc.1, { acc.2 with
                errors := acc.2.errors ++
                  ["Failed to process row " ++ toString row.id ++ ": " ++ msg] })

/-- `runMatch`: process the selected rows in time order, catching per-row
failures, and return the final state with the job summary.  The YAML parse
of the policy happens at the call boundary; the model receives the already
typed `PolicyConfig`. -/
def runMatch (jw : String → String → Rat) (st : DB) (accountId : Nat)
    (uploadIds : List Nat) (policy : PolicyConfig) : DB × MatchResult :=
  (matchRows st accountId uploadIds).foldl
    (runMatchStep jw policy accountId)
    (st, { stitchedNew := 0, linksCreated := 0, errors := [] })

/-! ### Policy document validation (`validatePolicyYaml`, policies route)

The validator receives the value produced by the YAML parser (`parseYaml`);
the model starts from that parsed value.  `Yaml.null` doubles for JS
`undefined` (both are falsy and fail every `typeof` test the validator
performs). -/

/-- A parsed YAML document value. -/
inductive Yaml where
  | null
  | bool (b : Bool)
  | num (q : Rat)
  | str (s : String)
  | arr (items : List Yaml)
  | map (entries : List (String × Yaml))

/-- JavaScript truthiness of a parsed YAML value (`NaN` cannot arise from a
YAML number). -/
def Yaml.truthy : Yaml → Bool
  | .null => false
  | .bool b => b
  | .num q => q ≠ 0
  | .str s => s ≠ ""
  | .arr _ => true
  | .map _ => true

/-- JavaScript `typeof` of a parsed YAML value (`typeof null` is
`"object"`; arrays are objects). -/
def Yaml.typeName : Yaml → String
  | .null => "object"
  | .bool _ => "boolean"
  | .num _ => "number"
  | .str _ => "string"
  | .arr _ => "object"
  | .map _ => "object"

/-- First entry of a parsed map for a key, `.null` (= JS `undefined`) when
absent. -/
def lookupOrNull (entries : List (String × Yaml)) (key : String) : Yaml :=
  match entries.find? (fun e => decide (e.1 = key)) with
  | some e => e.2
  | none => .null

/-- JavaScript property access `doc.key`: throws a `TypeError` on `null`,
yields the entry on a map (or `undefined` when absent, modelled `.null`),
and `undefined` on every other value. -/
def jsGet (doc : Yaml) (key : String) : Except String Yaml :=
  match doc with
  | .null => .error "Cannot read properties of null"
  | .map entries => .ok (lookupOrNull entries key)
  | _ => .ok .null

/-- The five recognized `attribution_mode` strings. -/
def attributionModeNames : List String :=
  ["paid_last", "first_touch", "last_touch", "call_first", "equal_weight"]

/-- `['paid_last', ...].includes(mode)`: only a string member of the list
passes. -/
def isRecognizedMode : Yaml → Bool
  | .str s => decide (s ∈ attributionModeNames)
  | _ => false

/-- `validatePolicyYaml` from the policies route, applied to the parsed
document: reject a falsy or non-string name, an `attribution_mode` outside
the five recognized values, and a falsy or non-object `windows` or
`weights`; the surrounding `try`/`catch` wraps every thrown message
(including the `TypeError` on a null document) into a `ValidationError`
prefixed `Invalid YAML policy`, written here at each throw site.  The
validated document itself is returned unchanged; the function is pure. -/
def validatePolicyYaml (policy : Yaml) : Except String Yaml :=
  match jsGet policy "name" with
  | .error e => .error ("Invalid YAML policy: " ++ e)
  | .ok name =>
    if ¬ name.truthy ∨ name.typeName ≠ "string" then
      .error "Invalid YAML policy: Policy must have a name"
    else
      match jsGet policy "attribution_mode" with
      | .error e => .error ("Invalid YAML policy: " ++ e)
      | .ok mode =>
        if ¬ mode.truthy ∨ ¬ isRecognizedMode mode then
          .error "Invalid YAML policy: Policy must have a valid attribution_mode"
        else
          match jsGet policy "windows" with
          | .error e => .error ("Invalid YAML policy: " ++ e)
          | .ok windows =>
            if ¬ windows.truthy ∨ windows.typeName ≠ "object" then
              .error "Invalid YAML policy: Policy must have windows configuration"
            else
              match jsGet policy "weights" with
              | .error e => .error ("Invalid YAML policy: " ++ e)
              | .ok weights =>
                if ¬ weights.truthy ∨ weights.typeName ≠ "object" then
                  .error "Invalid YAML policy: Policy must have weights configuration"
                else .ok policy

/-- Modelled from the spec sentence of claim C5 (for refinement comparison
only; the source of truth is `validatePolicyYaml` above): the document is
present, has a well-formed (non-empty string) name, an `attribution_mode`
among the five enumerated values, a `windows` map and a `weights` map. -/
def policyDocWellFormedSpec (doc : Yaml) : Bool :=
  match doc with
  | .map entries =>
    (match entries.find? (fun e => decide (e.1 = "name")) with
     | some e => (match e.2 with | .str s => s ≠ "" | _ => false)
     | none => false) &&
    (match entries.find? (fun e => decide (e.1 = "attribution_mode")) with
     | some e => isRecognizedMode e.2
     | none => false) &&
    (match entries.find? (fun e => decide (e.1 = "windows")) with
     | some e => (match e.2 with | .map _ => true | _ => false)
     | none => false) &&
    (match entries.find? (fun e => decide (e.1 = "weights")) with
     | some e => (match e.2 with | .map _ => true | _ => false)
     | none => false)
  | _ => false

/-- The name check the source performs: a non-empty string. -/
def nameOkB : Yaml → Bool
  | .str s => s ≠ ""
  | _ => false

/-- The `windows`/`weights` check the source performs: a truthy value of JS
type `object` (a map or a sequence). -/
def objOkB (v : Yaml) : Bool :=
  v.truthy && v.typeName == "object"

/-- The amended well-formedness predicate: as the spec one, except that
`windows` and `weights` only need to be truthy values of JS type `object`
(a map or a sequence), which is exactly what the source checks. -/
def policyDocWellFormedAmended (doc : Yaml) : Bool :=
  match doc with
  | .map entries =>
    nameOkB (lookupOrNull entries "name") &&
    isRecognizedMode (lookupOrNull entries "attribution_mode") &&
    objOkB (lookupOrNull entries "windows") &&
    objOkB (lookupOrNull entries "weights")
  | _ => false

/-! ### Spec-side comparison definitions -/

/-- Modelled from the spec sentence of claim C4 (for refinement comparison
only; the source of truth is `recomputeAttribution` above): scan the linked
events from latest to earliest; the first event whose UTM medium
case-insensitively matches one of cpc/paid/ppc supplies its UTM source;
absent any such event the field is empty. -/
def paidLastSourceSpec (events : List NormRow) : String :=
  match events.reverse.find? (fun (r : NormRow) =>
      ["cpc", "paid", "ppc"].contains (jsToLowerCase r.utmMedium)) with
  | some r => r.utmSource
  | none => ""

/-- The amended paid-last rule: as the spec one, except that a paid-medium
event whose own UTM source is absent contributes the literal `"paid"`
(the source computes `row.utmSource || 'paid'`). -/
def paidLastSourceAmended (events : List NormRow) : String :=
  match events.reverse.find? (fun (r : NormRow) =>
      ["cpc", "paid", "ppc"].contains (jsToLowerCase r.utmMedium)) with
  | some r => if r.utmSource = "" then "paid" else r.utmSource
  | none => ""

/-- The P1 candidate record built for a given lead (the value pushed by the
P1 loop of `findMatchingStitches`). -/
def mkP1Candidate (policy : PolicyConfig) (row : NormRow) (lead : Lead) :
    MatchCandidate :=
  { stitchId := lead.id, weight := policy.weights.phone_exact, pass := "P1",
    matchedOn := ["phone"],
    reason := "Phone exact match: " ++ row.phone,
    confidence := policy.confidence_rules.one_deterministic }

/-! ### Concrete fixtures used by witnesses and counterexamples -/

/-- A degenerate similarity function (any function works in the theorems,
which quantify over it). -/
def jwZero : String → String → Rat := fun _ _ => 0

/-- A maximal similarity function, used to exercise the fuzzy pass. -/
def jwOne : String → String → Rat := fun _ _ => 1

/-- A call event with only a phone number. -/
def exRowPhone : NormRow :=
  { id := 1, accountId := 7, uploadId := 3, sourceType := "calls",
    occurredAt := 0, name := "", phone := "5551234", email := "",
    gclid := "", clientId := "", utmSource := "", utmMedium := "",
    utmCampaign := "", landingPage := "", location := "", durationSec := 0,
    amount := 0, externalId := "" }

/-- An existing lead with the same phone number, created at time 0. -/
def exLeadPhone : Lead :=
  { id := 1, accountId := 7, leadCreatedAt := 0, name := "", phone := "5551234",
    email := "", location := "", revenue := 0, confidence := 1,
    finalChannel := "", finalSource := "", finalMedium := "", finalCampaign := "",
    firstTouchSource := "", lastTouchSource := "", paidLastSource := "" }

/-- A policy with the default windows and weights of the sample policies. -/
def exPolicy : PolicyConfig :=
  { name := "t", attribution_mode := .last_touch,
    windows := { phone_exact := 30, email_exact := 30, click_chain := 7,
                 fuzzy_match := 1 },
    weights := { phone_exact := 1, email_exact := Rat.divInt 9 10,
                 click_chain := Rat.divInt 7 10, fuzzy_match := Rat.divInt 1 2 },
    tie_breakers := ["call_over_form"],
    confidence_rules := { two_deterministic := 1,
                          one_deterministic := Rat.divInt 9 10,
                          click_only := Rat.divInt 7 10,
                          fuzzy_only := Rat.divInt 1 2 } }

/-- The same policy in `equal_weight` mode. -/
def exPolicyEqualWeight : PolicyConfig :=
  { exPolicy with attribution_mode := .equal_weight }

/-- The same policy in `last_touch` mode (alias for readability). -/
def exPolicyLastTouch : PolicyConfig :=
  { exPolicy with attribution_mode := .last_touch }

/-- Account 7 at its monthly limit, with a lead that phone-matches
`exRowPhone`. -/
def exDbAtLimit : DB :=
  { rows := [exRowPhone], leads := [exLeadPhone], links := [], audit := [],
    usage := [(7, 250)], nextLeadDbId := 2 }

/-- Account 7 below its monthly limit, same data otherwise. -/
def exDbBelowLimit : DB :=
  { exDbAtLimit with usage := [(7, 10)] }

/-- Account 7 with no usage-counter row for the current period. -/
def exDbNoCounter : DB :=
  { exDbAtLimit with usage := [] }

/-- The phone event 31 days after the lead's creation. -/
def exRowPhone31 : NormRow :=
  { exRowPhone with occurredAt := 31 * 86400000 }

/-- A database holding `exLeadPhone` and the 31-day-late event. -/
def exDb31 : DB :=
  { rows := [exRowPhone31], leads := [exLeadPhone], links := [], audit := [],
    usage := [(7, 10)], nextLeadDbId := 2 }

/-- An event with UTM source google / medium organic, already linked to
lead 1. -/
def exRowUtm : NormRow :=
  { exRowPhone with phone := "", utmSource := "google", utmMedium := "organic" }

/-- The link joining `exRowUtm` (row 1) to lead 1. -/
def exLinkNew : Link :=
  { accountId := 7, stitchId := 1, normalizedRowId := 1, matchPass := "NEW",
    matchedKeys := [], reason := "New lead created" }

/-- A database in which lead 1 has exactly one linked event, `exRowUtm`. -/
def exDbLinked : DB :=
  { rows := [exRowUtm], leads := [exLeadPhone], links := [exLinkNew],
    audit := [], usage := [(7, 0)], nextLeadDbId := 2 }

/-- An event with paid medium `cpc` but no UTM source. -/
def exRowCpc : NormRow :=
  { exRowPhone with phone := "", utmSource := "", utmMedium := "cpc" }

/-- A database in which lead 1's only linked event is `exRowCpc`. -/
def exDbCpc : DB :=
  { exDbLinked with rows := [exRowCpc] }

/-- An event with a name and location for the fuzzy pass. -/
def exRowFuzzy : NormRow :=
  { exRowPhone with phone := "", name := "ann", location := "austin" }

/-- A lead with the same name and location. -/
def exLeadFuzzy : Lead :=
  { exLeadPhone with phone := "", name := "ann", location := "austin" }

/-- A database holding only `exLeadFuzzy`. -/
def exDbFuzzy : DB :=
  { rows := [exRowFuzzy], leads := [exLeadFuzzy], links := [], audit := [],
    usage := [(7, 0)], nextLeadDbId := 2 }

/-- A policy document whose `windows` entry is a YAML sequence, not a map. -/
def exDocSeqWindows : Yaml :=
  .map [("name", .str "A"), ("attribution_mode", .str "last_touch"),
        ("windows", .arr []), ("weights", .map [])]

/-! ### Helper lemmas -/

lemma usage_linkRowToStitch (st : DB) (row : NormRow) (stitchDbId : Nat)
    (c : Option MatchCandidate) :
    (linkRowToStitch st row stitchDbId c).usage = st.usage := rfl

lemma leads_linkRowToStitch (st : DB) (row : NormRow) (stitchDbId : Nat)
    (c : Option MatchCandidate) :
    (linkRowToStitch st row stitchDbId c).leads = st.leads := rfl

lemma links_linkRowToStitch (st : DB) (row : NormRow) (stitchDbId : Nat)
    (c : Option MatchCandidate) :
    (linkRowToStitch st row stitchDbId c).links.length = st.links.length + 1 := by
  simp [linkRowToStitch]

lemma usage_recomputeAttribution (st : DB) (stitchDbId : Nat) (p : PolicyConfig) :
    (recomputeAttribution st stitchDbId p).usage = st.usage := by
  simp only [recomputeAttribution]
  split
  · rfl
  · rfl

lemma links_recomputeAttribution (st : DB) (stitchDbId : Nat) (p : PolicyConfig) :
    (recomputeAttribution st stitchDbId p).links = st.links := by
  simp only [recomputeAttribution]
  split
  · rfl
  · rfl

lemma leads_length_recomputeAttribution (st : DB) (stitchDbId : Nat)
    (p : PolicyConfig) :
    (recomputeAttribution st stitchDbId p).leads.length = st.leads.length := by
  simp only [recomputeAttribution]
  split
  · rfl
  · simp

lemma usage_createNewStitch (st : DB) (row : NormRow) (accountId : Nat) :
    (createNewStitch st row accountId).1.usage = st.usage := rfl

lemma findUsage_incUsage (u : List (Nat × Nat)) (accountId : Nat) :
    findUsage (incUsage u accountId) accountId =
      (findUsage u accountId).map (fun c => c + 1) := by
  induction u with
  | nil => rfl
  | cons p ps ih =>
    by_cases h : p.1 = accountId <;>
      · first
        | (simp [incUsage, findUsage, List.find?, h]
           simpa [incUsage, findUsage] using ih)
        | simp [incUsage, findUsage, List.find?, h]

lemma checkUsageLimit_ok (st : DB) (accountId : Nat) :
    checkUsageLimit st accountId = .ok () ↔
      ∃ c, findUsage st.usage accountId = some c ∧ c < monthlyLimit := by
  unfold checkUsageLimit
  cases h : findUsage st.usage accountId with
  | none => simp
  | some c =>
    by_cases hc : c ≥ monthlyLimit <;>
      · first
        | (simp [hc]
           omega)
        | simp [hc]

lemma processRow_error (jw : String → String → Rat) (st : DB)
    (policy : PolicyConfig) (row : NormRow) (accountId : Nat) (e : String) :
    processRow jw st policy row accountId = .error e ↔
      checkUsageLimit st accountId = .error e := by
  unfold processRow
  cases h : checkUsageLimit st accountId <;> simp

/-- Successful row processing: the usage check passed, and the final state's
usage counter is the input one, incremented exactly when a new stitch was
created. -/
lemma processRow_ok_usage (jw : String → String → Rat) (st : DB)
    (policy : PolicyConfig) (row : NormRow) (accountId : Nat) (st' : DB)
    (created : Bool)
    (h : processRow jw st policy row accountId = .ok (st', created)) :
    (∃ c, findUsage st.usage accountId = some c ∧ c < monthlyLimit) ∧
    findUsage st'.usage accountId =
      (if created then (findUsage st.usage accountId).map (fun c => c + 1)
       else findUsage st.usage accountId) := by
  unfold processRow at h
  cases hch : checkUsageLimit st accountId with
  | error e => rw [hch] at h; exact absurd h (by simp)
  | ok u =>
    rw [hch] at h
    have hok : checkUsageLimit st accountId = .ok () := by cases u; exact hch
    refine ⟨(checkUsageLimit_ok st accountId).mp hok, ?_⟩
    simp only [] at h
    cases hw : pickBestCandidate (findMatchingStitches jw st row policy accountId) policy row with
    | some w =>
      rw [hw] at h
      simp only [Except.ok.injEq, Prod.mk.injEq] at h
      obtain ⟨hst, hcr⟩ := h
      subst hst
      subst hcr
      simp [usage_recomputeAttribution, usage_linkRowToStitch]
    | none =>
      rw [hw] at h
      simp only [Except.ok.injEq, Prod.mk.injEq] at h
      obtain ⟨hst, hcr⟩ := h
      subst hst
      subst hcr
      simp [usage_recomputeAttribution, usage_linkRowToStitch,
            usage_createNewStitch, findUsage_incUsage]

/-- Invariant of the `runMatch` fold: starting from a usage count `U ≤ limit`,
after any row list the new-lead count and the usage counter have both grown
by the same `k`, with `U + k` still at most the limit. -/
lemma runMatch_fold_usage (jw : String → String → Rat) (policy : PolicyConfig)
    (accountId : Nat) :
    ∀ (rows : List NormRow) (st : DB) (res : MatchResult) (U : Nat),
      findUsage st.usage accountId = some U → U ≤ monthlyLimit →
      ∃ k,
        (rows.foldl (runMatchStep jw policy accountId) (st, res)).2.stitchedNew
            = res.stitchedNew + k ∧
        findUsage ((rows.foldl (runMatchStep jw policy accountId) (st, res)).1).usage
            accountId = some (U + k) ∧
        U + k ≤ monthlyLimit := by
  intro rows
  induction rows with
  | nil =>
    intro st res U hU hle
    exact ⟨0, by simp, by simpa using hU, by omega⟩
  | cons r rs ih =>
    intro st res U hU hle
    rw [List.foldl_cons]
    cases hp : processRow jw st policy r accountId with
    | error msg =>
      have hstep : runMatchStep jw policy accountId (st, res) r =
          (st, { res with errors := res.errors ++
            ["Failed to process row " ++ toString r.id ++ ": " ++ msg] }) := by
        simp [runMatchStep, hp]
      rw [hstep]
      simpa using ih st _ U hU hle
    | ok p =>
      obtain ⟨st', created⟩ := p
      have hstep : runMatchStep jw policy accountId (st, res) r =
          (st', { res with
                  stitchedNew := res.stitchedNew + (if created then 1 else 0),
                  linksCreated := res.linksCreated + 1 }) := by
        simp [runMatchStep, hp]
      rw [hstep]
      obtain ⟨⟨c, hc, hclt⟩, husage⟩ :=
        processRow_ok_usage jw st policy r accountId st' created hp
      rw [hU] at hc
      obtain rfl : U = c := Option.some.inj hc
      cases created with
      | false =>
        simp only [if_neg Bool.false_ne_true] at husage
        have hu' : findUsage st'.usage accountId = some U := husage.trans hU
        obtain ⟨k, h1, h2, h3⟩ := ih st' _ U hu' hle
        refine ⟨k, ?_, h2, h3⟩
        simpa using h1
      | true =>
        have hu' : findUsage st'.usage accountId = some (U + 1) := by
          simp only [if_pos] at husage
          rw [husage, hU]
          rfl
        obtain ⟨k, h1, h2, h3⟩ := ih st' _ (U + 1) hu' (by omega)
        refine ⟨k + 1, ?_, ?_, by omega⟩
        · rw [h1]
          simp
          omega
        · rw [show U + (k + 1) = U + 1 + k by omega]
          exact h2

/-- When the account has no usage-counter row, every row of the fold fails
with `Usage counter not found` and the state never changes. -/
lemma runMatch_fold_noCounter (jw : String → String → Rat)
    (policy : PolicyConfig) (accountId : Nat) (st : DB)
    (hnone : findUsage st.usage accountId = none) :
    ∀ (rows : List NormRow) (res : MatchResult),
      rows.foldl (runMatchStep jw policy accountId) (st, res) =
        (st, { res with errors := res.errors ++ rows.map (fun r =>
          "Failed to process row " ++ toString r.id ++ ": Usage counter not found") }) := by
  intro rows
  induction rows with
  | nil => intro res; simp
  | cons r rs ih =>
    intro res
    rw [List.foldl_cons]
    have hp : processRow jw st policy r accountId = .error "Usage counter not found" := by
      unfold processRow checkUsageLimit
      rw [hnone]
    have hstep : runMatchStep jw policy accountId (st, res) r =
        (st, { res with errors := res.errors ++
          ["Failed to process row " ++ toString r.id ++ ": Usage counter not found"] }) := by
      simp [runMatchStep, hp]
      rw [String.append_assoc]
      congr 1
    rw [hstep, ih]
    simp

/-- Error-accounting invariant of the `runMatch` fold: every row either links
or errors (the lengths add up), and every recorded error names the id of one
of the processed rows. -/
lemma runMatch_fold_summary (jw : String → String → Rat) (policy : PolicyConfig)
    (accountId : Nat) :
    ∀ (rows : List NormRow) (st : DB) (res : MatchResult),
      (rows.foldl (runMatchStep jw policy accountId) (st, res)).2.errors.length +
        (rows.foldl (runMatchStep jw policy accountId) (st, res)).2.linksCreated =
        res.errors.length + res.linksCreated + rows.length ∧
      ∀ e ∈ (rows.foldl (runMatchStep jw policy accountId) (st, res)).2.errors,
        e ∈ res.errors ∨ ∃ r ∈ rows, ∃ m,
          e = "Failed to process row " ++ toString r.id ++ ": " ++ m := by
  intro rows
  induction rows with
  | nil =>
    intro st res
    exact ⟨by simp, fun e he => .inl he⟩
  | cons r rs ih =>
    intro st res
    rw [List.foldl_cons]
    cases hp : processRow jw st policy r accountId with
    | error msg =>
      have hstep : runMatchStep jw policy accountId (st, res) r =
          (st, { res with errors := res.errors ++
            ["Failed to process row " ++ toString r.id ++ ": " ++ msg] }) := by
        simp [runMatchStep, hp]
      rw [hstep]
      obtain ⟨ha, hb⟩ := ih st ({ res with errors := res.errors ++
        ["Failed to process row " ++ toString r.id ++ ": " ++ msg] })
      refine ⟨?_, ?_⟩
      · rw [ha]
        simp
        omega
      · intro e he
        rcases hb e he with hmem | ⟨r', hr', m, hm⟩
        · rcases List.mem_append.mp hmem with h | h
          · exact .inl h
          · simp only [List.mem_singleton] at h
            exact .inr ⟨r, by simp, msg, h⟩
        · exact .inr ⟨r', by simp [hr'], m, hm⟩
    | ok p =>
      obtain ⟨st', created⟩ := p
      have hstep : runMatchStep jw policy accountId (st, res) r =
          (st', { res with
                  stitchedNew := res.stitchedNew + (if created then 1 else 0),
                  linksCreated := res.linksCreated + 1 }) := by
        simp [runMatchStep, hp]
      rw [hstep]
      obtain ⟨ha, hb⟩ := ih st' ({ res with
        stitchedNew := res.stitchedNew + (if created then 1 else 0),
        linksCreated := res.linksCreated + 1 })
      refine ⟨?_, ?_⟩
      · rw [ha]
        simp
        omega
      · intro e he
        rcases hb e he with hmem | ⟨r', hr', m, hm⟩
        · exact .inl hmem
        · exact .inr ⟨r', by simp [hr'], m, hm⟩

/-! ### Claim theorems -/

/-- C1: for every batch run over an account whose current-period usage
counter starts at `U ≤ L` (with `L` the limit `checkUsageLimit` enforces),
the final usage counter equals `min(L, U + newLeadCount)`, and the total
never exceeds `L` — no event whose processing would push usage strictly
above the limit creates a lead. -/
theorem runMatch_usage_counter_min (jw : String → String → Rat) (st : DB)
    (accountId : Nat) (uploadIds : List Nat) (policy : PolicyConfig) (U : Nat)
    (hU : findUsage st.usage accountId = some U) (hle : U ≤ monthlyLimit) :
    findUsage ((runMatch jw st accountId uploadIds policy).1).usage accountId =
      some (min monthlyLimit
        (U + (runMatch jw st accountId uploadIds policy).2.stitchedNew)) ∧
    U + (runMatch jw st accountId uploadIds policy).2.stitchedNew ≤ monthlyLimit := by
  obtain ⟨k, h1, h2, h3⟩ := runMatch_fold_usage jw policy accountId
    (matchRows st accountId uploadIds) st
    { stitchedNew := 0, linksCreated := 0, errors := [] } U hU hle
  unfold runMatch
  have hk : ((matchRows st accountId uploadIds).foldl
      (runMatchStep jw policy accountId)
      (st, { stitchedNew := 0, linksCreated := 0, errors := [] })).2.stitchedNew = k := by
    simpa using h1
  rw [hk]
  constructor
  · rw [h2, Nat.min_eq_right h3]
  · exact h3

/-- Witness for C1 at a concrete database below the limit. -/
theorem runMatch_usage_counter_min_witness :
    findUsage exDbBelowLimit.usage 7 = some 10 ∧ 10 ≤ monthlyLimit ∧
    (findUsage ((runMatch jwZero exDbBelowLimit 7 [3] exPolicy).1).usage 7 =
      some (min monthlyLimit
        (10 + (runMatch jwZero exDbBelowLimit 7 [3] exPolicy).2.stitchedNew)) ∧
     10 + (runMatch jwZero exDbBelowLimit 7 [3] exPolicy).2.stitchedNew ≤ monthlyLimit) :=
  ⟨by decide, by decide,
   runMatch_usage_counter_min jwZero exDbBelowLimit 7 [3] exPolicy 10
     (by decide) (by decide)⟩

/-- C6: every per-event failure is caught and recorded — the error count and
the link count add up to the number of processed events (so processing never
aborts early), and every recorded error message carries the identifier of
one of the job's events; the job always returns its summary. -/
theorem runMatch_per_event_errors (jw : String → String → Rat) (st : DB)
    (accountId : Nat) (uploadIds : List Nat) (policy : PolicyConfig) :
    (runMatch jw st accountId uploadIds policy).2.errors.length +
      (runMatch jw st accountId uploadIds policy).2.linksCreated =
      (matchRows st accountId uploadIds).length ∧
    ∀ e ∈ (runMatch jw st accountId uploadIds policy).2.errors,
      ∃ r ∈ matchRows st accountId uploadIds, ∃ m,
        e = "Failed to process row " ++ toString r.id ++ ": " ++ m := by
  obtain ⟨ha, hb⟩ := runMatch_fold_summary jw policy accountId
    (matchRows st accountId uploadIds) st
    { stitchedNew := 0, linksCreated := 0, errors := [] }
  unfold runMatch
  refine ⟨by simpa using ha, fun e he => ?_⟩
  exact (hb e he).resolve_left (List.not_mem_nil e)

/-- Witness for C6 at a concrete database whose single event fails. -/
theorem runMatch_per_event_errors_witness :
    (runMatch jwZero exDbNoCounter 7 [3] exPolicy).2.errors.length +
      (runMatch jwZero exDbNoCounter 7 [3] exPolicy).2.linksCreated =
      (matchRows exDbNoCounter 7 [3]).length ∧
    ∀ e ∈ (runMatch jwZero exDbNoCounter 7 [3] exPolicy).2.errors,
      ∃ r ∈ matchRows exDbNoCounter 7 [3], ∃ m,
        e = "Failed to process row " ++ toString r.id ++ ": " ++ m :=
  runMatch_per_event_errors jwZero exDbNoCounter 7 [3] exPolicy

/-- C9: the candidate resolver is deterministic — two invocations of
`pickBestCandidate` with equal candidate lists, policies and events return
the same winner (or both none). -/
theorem pickBestCandidate_deterministic (c₁ c₂ : List MatchCandidate)
    (p₁ p₂ : PolicyConfig) (r₁ r₂ : NormRow)
    (hc : c₁ = c₂) (hp : p₁ = p₂) (hr : r₁ = r₂) :
    pickBestCandidate c₁ p₁ r₁ = pickBestCandidate c₂ p₂ r₂ := by
  subst hc
  subst hp
  subst hr
  rfl

/-- Witness for C9 on a concrete tied candidate list. -/
theorem pickBestCandidate_deterministic_witness :
    pickBestCandidate
        [mkP1Candidate exPolicy exRowPhone exLeadPhone,
         mkP1Candidate exPolicy exRowPhone exLeadPhone] exPolicy exRowPhone =
      pickBestCandidate
        [mkP1Candidate exPolicy exRowPhone exLeadPhone,
         mkP1Candidate exPolicy exRowPhone exLeadPhone] exPolicy exRowPhone :=
  pickBestCandidate_deterministic _ _ _ _ _ _ rfl rfl rfl

/-- C10: when the account has no usage-counter row for the current period,
the usage check fails for every event, so the job records one error per
event (naming the usage-counter failure), creates no leads, creates no
links, and leaves the database unchanged. -/
theorem runMatch_missing_usage_counter (jw : String → String → Rat) (st : DB)
    (accountId : Nat) (uploadIds : List Nat) (policy : PolicyConfig)
    (h : findUsage st.usage accountId = none) :
    runMatch jw st accountId uploadIds policy =
      (st, { stitchedNew := 0, linksCreated := 0,
             errors := (matchRows st accountId uploadIds).map (fun r =>
               "Failed to process row " ++ toString r.id ++
                 ": Usage counter not found") }) := by
  unfold runMatch
  rw [runMatch_fold_noCounter jw policy accountId st h]
  simp

/-- Witness for C10 at a concrete database with no usage-counter row. -/
theorem runMatch_missing_usage_counter_witness :
    runMatch jwZero exDbNoCounter 7 [3] exPolicy =
      (exDbNoCounter,
       { stitchedNew := 0, linksCreated := 0,
         errors := (matchRows exDbNoCounter 7 [3]).map (fun r =>
           "Failed to process row " ++ toString r.id ++
             ": Usage counter not found") }) :=
  runMatch_missing_usage_counter jwZero exDbNoCounter 7 [3] exPolicy (by decide)

/-- C2 counterexample: at the plan limit, an event that the resolver would
match to an existing lead (a winner exists) is nevertheless failed with the
usage-limit error and no link is created — the usage check runs before
candidate generation for every event. -/
theorem runMatch_at_limit_blocks_winner_event :
    (pickBestCandidate (findMatchingStitches jwZero exDbAtLimit exRowPhone exPolicy 7)
        exPolicy exRowPhone).isSome = true ∧
    findUsage exDbAtLimit.usage 7 = some monthlyLimit ∧
    (runMatch jwZero exDbAtLimit 7 [3] exPolicy).2 =
      { stitchedNew := 0, linksCreated := 0,
        errors := ["Failed to process row 1: Monthly limit of 250 stitched leads exceeded"] } := by
  decide

/-- C2 amended: for an event whose resolver returns a winner and whose
preceding usage check passes (counter strictly below the limit), no usage
increment happens, no lead is created, and exactly one link is created —
but the usage check itself does run for every event, so at the limit even a
winner event fails (see the counterexample). -/
theorem processRow_winner_no_increment (jw : String → String → Rat) (st : DB)
    (policy : PolicyConfig) (row : NormRow) (accountId : Nat) (c : Nat)
    (w : MatchCandidate)
    (hc : findUsage st.usage accountId = some c) (hlt : c < monthlyLimit)
    (hw : pickBestCandidate (findMatchingStitches jw st row policy accountId)
        policy row = some w) :
    ∃ st', processRow jw st policy row accountId = .ok (st', false) ∧
      st'.usage = st.usage ∧
      st'.leads.length = st.leads.length ∧
      st'.links.length = st.links.length + 1 := by
  have hok : checkUsageLimit st accountId = .ok () :=
    (checkUsageLimit_ok st accountId).mpr ⟨c, hc, hlt⟩
  refine ⟨recomputeAttribution (linkRowToStitch st row w.stitchId (some w))
      w.stitchId policy, ?_, ?_, ?_, ?_⟩
  · unfold processRow
    rw [hok]
    simp only []
    rw [hw]
  · rw [usage_recomputeAttribution, usage_linkRowToStitch]
  · rw [leads_length_recomputeAttribution, leads_linkRowToStitch]
  · rw [links_recomputeAttribution]
    exact links_linkRowToStitch st row w.stitchId (some w)

/-- Witness for the amended C2 below the limit. -/
theorem processRow_winner_no_increment_witness :
    findUsage exDbBelowLimit.usage 7 = some 10 ∧ 10 < monthlyLimit ∧
    (∃ st', processRow jwZero exDbBelowLimit exPolicy exRowPhone 7 = .ok (st', false) ∧
      st'.usage = exDbBelowLimit.usage ∧
      st'.leads.length = exDbBelowLimit.leads.length ∧
      st'.links.length = exDbBelowLimit.links.length + 1) :=
  ⟨by decide, by decide,
   processRow_winner_no_increment jwZero exDbBelowLimit exPolicy exRowPhone 7 10
     (mkP1Candidate exPolicy exRowPhone exLeadPhone) (by decide) (by decide) (by decide)⟩

/-- In `equal_weight` mode the attribution switch assigns nothing: the final
triple stays at its `''` initializers and the channel of an empty medium is
`direct`. -/
lemma attributionFields_equal_weight (policy : PolicyConfig)
    (linkedRows : List NormRow) (firstRow lastRow : NormRow)
    (h : policy.attribution_mode = .equal_weight) :
    (attributionFields policy linkedRows firstRow lastRow).1 = "" ∧
    (attributionFields policy linkedRows firstRow lastRow).2.1 = "" ∧
    (attributionFields policy linkedRows firstRow lastRow).2.2.1 = "" ∧
    (attributionFields policy linkedRows firstRow lastRow).2.2.2.1 = "direct" := by
  simp [attributionFields, h, channelOfMedium]

/-- The seventh component of `attributionFields` is the paid-last scan,
independently of the attribution mode. -/
lemma attributionFields_paidLastSource (policy : PolicyConfig)
    (linkedRows : List NormRow) (firstRow lastRow : NormRow) :
    (attributionFields policy linkedRows firstRow lastRow).2.2.2.2.2.2.1 =
      paidLastScan linkedRows.reverse := by
  simp only [attributionFields]

/-- The paid-last loop of the source is the `find?`-based scan. -/
lemma paidLastScan_eq_find (l : List NormRow) :
    paidLastScan l =
      match l.find? (fun (r : NormRow) => isPaidMedium r.utmMedium) with
      | some r => jsOr r.utmSource "paid"
      | none => "" := by
  induction l with
  | nil => rfl
  | cons r rest ih =>
    by_cases h : isPaidMedium r.utmMedium = true
    · simp [paidLastScan, List.find?, h]
    · simp only [Bool.not_eq_true] at h
      simp [paidLastScan, List.find?, h, ih]

/-- The source's paid-medium test agrees with the spec's case-insensitive
membership test. -/
lemma isPaidMedium_eq_contains (m : String) :
    isPaidMedium m = ["cpc", "paid", "ppc"].contains (jsToLowerCase m) := by
  by_cases h : m = ""
  · subst h
    rfl
  · have hlist : (["cpc", "paid", "ppc"].contains (jsToLowerCase m)) =
        (jsToLowerCase m == "cpc" || (jsToLowerCase m == "paid" ||
          (jsToLowerCase m == "ppc" || false))) := rfl
    simp [isPaidMedium, h, hlist, Bool.or_assoc]

/-- The paid-last field written by the engine equals the amended spec scan. -/
lemma paidLastScan_eq_amended (l : List NormRow) :
    paidLastScan l.reverse = paidLastSourceAmended l := by
  rw [paidLastScan_eq_find]
  unfold paidLastSourceAmended
  have hpred : (fun (r : NormRow) => isPaidMedium r.utmMedium) =
      (fun (r : NormRow) => ["cpc", "paid", "ppc"].contains (jsToLowerCase r.utmMedium)) :=
    funext fun r => isPaidMedium_eq_contains r.utmMedium
  rw [hpred]
  cases l.reverse.find? (fun (r : NormRow) =>
      ["cpc", "paid", "ppc"].contains (jsToLowerCase r.utmMedium)) with
  | none => rfl
  | some r => simp [jsOr]

/-- C3 counterexample: on a lead whose single linked event has UTM source
`google`, `equal_weight` recomputation leaves `final_source` empty while
`last_touch` yields `google` — the two modes do not agree. -/
theorem equal_weight_differs_from_last_touch :
    ((recomputeAttribution exDbLinked 1 exPolicyEqualWeight).leads.map
        (fun l => l.finalSource)) = [""] ∧
    ((recomputeAttribution exDbLinked 1 exPolicyLastTouch).leads.map
        (fun l => l.finalSource)) = ["google"] ∧
    ("" : String) ≠ "google" := by
  decide

/-- C3 amended: for a lead with a non-empty linked event set, a policy in
`equal_weight` mode sets the final attribution triple to empty strings (and
the final channel to `direct`) — the switch in `recomputeAttribution` has no
`equal_weight` case, so the initializers survive; the result is not the
last-touch triple. -/
theorem recomputeAttribution_equal_weight_empty (st : DB) (stitchDbId : Nat)
    (policy : PolicyConfig) (hmode : policy.attribution_mode = .equal_weight)
    (hne : linkedRowsFor st stitchDbId ≠ []) :
    ∀ l ∈ (recomputeAttribution st stitchDbId policy).leads, l.id = stitchDbId →
      l.finalSource = "" ∧ l.finalMedium = "" ∧ l.finalCampaign = "" ∧
      l.finalChannel = "direct" := by
  intro l hl hid
  rcases hrev : (linkedRowsFor st stitchDbId).reverse with _ | ⟨lastRow, tail⟩
  · exact absurd (List.reverse_eq_nil_iff.mp hrev) hne
  · simp only [recomputeAttribution, hrev] at hl
    rcases List.mem_map.mp hl with ⟨l0, hl0, hfl⟩
    by_cases h0 : l0.id = stitchDbId
    · obtain ⟨e1, e2, e3, e4⟩ := attributionFields_equal_weight policy
        (linkedRowsFor st stitchDbId) ((linkedRowsFor st stitchDbId).headD lastRow)
        lastRow hmode
      rw [← hfl]
      simp only [if_pos h0]
      exact ⟨e1, e2, e3, e4⟩
    · rw [← hfl] at hid
      simp only [if_neg h0] at hid
      exact absurd hid h0

/-- Witness for the amended C3 at a concrete linked lead. -/
theorem recomputeAttribution_equal_weight_empty_witness :
    exPolicyEqualWeight.attribution_mode = .equal_weight ∧
    linkedRowsFor exDbLinked 1 ≠ [] ∧
    (∀ l ∈ (recomputeAttribution exDbLinked 1 exPolicyEqualWeight).leads,
      l.id = 1 →
      l.finalSource = "" ∧ l.finalMedium = "" ∧ l.finalCampaign = "" ∧
      l.finalChannel = "direct") :=
  ⟨rfl, by decide,
   fun l hl hid => recomputeAttribution_equal_weight_empty exDbLinked 1
     exPolicyEqualWeight rfl (by decide) l hl hid⟩

/-- C4 counterexample: lead 1's only linked event has medium `cpc` and no
UTM source; the engine records `paid_last_source = "paid"`, while the spec's
scan (the event supplies its own UTM source) yields the empty string. -/
theorem paid_last_source_defaults_to_paid :
    ((recomputeAttribution exDbCpc 1 exPolicy).leads.map
        (fun l => l.paidLastSource)) = ["paid"] ∧
    paidLastSourceSpec (linkedRowsFor exDbCpc 1) = "" ∧
    (linkedRowsFor exDbCpc 1).length = 1 := by
  decide

/-- C4 amended: for every lead with a non-empty linked event set,
recomputation sets `paid_last_source` by scanning linked events from latest
to earliest; the first event with a paid medium (case-insensitively cpc,
paid or ppc) supplies its UTM source, defaulting to the literal `"paid"`
when that event's UTM source is absent; with no such event the field is
empty. -/
theorem recomputeAttribution_paid_last_source (st : DB) (stitchDbId : Nat)
    (policy : PolicyConfig)
    (hne : linkedRowsFor st stitchDbId ≠ []) :
    ∀ l ∈ (recomputeAttribution st stitchDbId policy).leads, l.id = stitchDbId →
      l.paidLastSource = paidLastSourceAmended (linkedRowsFor st stitchDbId) := by
  intro l hl hid
  rcases hrev : (linkedRowsFor st stitchDbId).reverse with _ | ⟨lastRow, tail⟩
  · exact absurd (List.reverse_eq_nil_iff.mp hrev) hne
  · simp only [recomputeAttribution, hrev] at hl
    rcases List.mem_map.mp hl with ⟨l0, hl0, hfl⟩
    by_cases h0 : l0.id = stitchDbId
    · rw [← hfl]
      simp only [if_pos h0]
      show (attributionFields policy (linkedRowsFor st stitchDbId)
          ((linkedRowsFor st stitchDbId).headD lastRow) lastRow).2.2.2.2.2.2.1 =
        paidLastSourceAmended (linkedRowsFor st stitchDbId)
      rw [attributionFields_paidLastSource, paidLastScan_eq_amended]
    · rw [← hfl] at hid
      simp only [if_neg h0] at hid
      exact absurd hid h0

/-- Witness for the amended C4 at a concrete linked lead. -/
theorem recomputeAttribution_paid_last_source_witness :
    linkedRowsFor exDbCpc 1 ≠ [] ∧
    (∀ l ∈ (recomputeAttribution exDbCpc 1 exPolicy).leads, l.id = 1 →
      l.paidLastSource = paidLastSourceAmended (linkedRowsFor exDbCpc 1)) :=
  ⟨by decide,
   fun l hl hid => recomputeAttribution_paid_last_source exDbCpc 1 exPolicy
     (by decide) l hl hid⟩

/-- What a successful P1 per-lead check means: a P1-tagged candidate for
that lead, emitted exactly under the window condition. -/
lemma p1CandidateFor_some (row : NormRow) (policy : PolicyConfig)
    (phoneKey : String) (m : Lead) (c : MatchCandidate)
    (h : p1CandidateFor row policy phoneKey m = some c) :
    c.pass = "P1" ∧ c.stitchId = m.id ∧
    isWithinWindow row.occurredAt m.leadCreatedAt policy.windows.phone_exact = true := by
  unfold p1CandidateFor at h
  split at h
  · obtain rfl := Option.some.inj h
    next hw => exact ⟨rfl, rfl, hw⟩
  · exact absurd h (by simp)

/-- Every candidate of the P2 pass carries pass tag `P2`. -/
lemma p2Candidates_pass (st : DB) (row : NormRow) (policy : PolicyConfig)
    (accountId : Nat) :
    ∀ c ∈ p2Candidates st row policy accountId, c.pass = "P2" := by
  intro c hc
  unfold p2Candidates at hc
  cases hk : (generateMatchingKeys row).email with
  | none => rw [hk] at hc; exact absurd hc (by simp)
  | some k =>
    rw [hk] at hc
    obtain ⟨m, _, hsome⟩ := List.mem_filterMap.mp hc
    unfold p2CandidateFor at hsome
    split at hsome
    · obtain rfl := Option.some.inj hsome
      rfl
    · exact absurd hsome (by simp)

/-- Every candidate of the P3 pass carries pass tag `P3`. -/
lemma p3Candidates_pass (st : DB) (row : NormRow) (policy : PolicyConfig)
    (accountId : Nat) :
    ∀ c ∈ p3Candidates st row policy accountId, c.pass = "P3" := by
  intro c hc
  unfold p3Candidates at hc
  simp only [] at hc
  split at hc
  · exact absurd hc (by simp)
  · obtain ⟨m, _, hsome⟩ := List.mem_filterMap.mp hc
    split at hsome
    · obtain rfl := Option.some.inj hsome
      rfl
    · exact absurd hsome (by simp)

/-- What a successful P4 per-lead check means: a P4-tagged candidate for
that lead, whose case-insensitive name similarity reached the 0.88
threshold. -/
lemma p4CandidateFor_some (jw : String → String → Rat) (row : NormRow)
    (policy : PolicyConfig) (m : Lead) (c : MatchCandidate)
    (h : p4CandidateFor jw row policy m = some c) :
    c.pass = "P4" ∧ c.stitchId = m.id ∧
    Rat.divInt 88 100 ≤ calculateSimilarity jw row.name m.name := by
  unfold p4CandidateFor at h
  split at h
  · exact absurd h (by simp)
  · split at h
    · exact absurd h (by simp)
    · simp only [] at h
      split at h
      · exact absurd h (by simp)
      next hsim =>
        split at h
        · exact absurd h (by simp)
        · split at h
          · split at h
            · obtain rfl := Option.some.inj h
              exact ⟨rfl, rfl, le_of_not_lt hsim⟩
            · exact absurd h (by simp)
          · rw [if_pos trivial] at h
            obtain rfl := Option.some.inj h
            exact ⟨rfl, rfl, le_of_not_lt hsim⟩

/-- Every candidate of the P4 pass carries pass tag `P4` and is justified by
a lead whose name similarity reached the threshold. -/
lemma p4Candidates_sim (jw : String → String → Rat) (st : DB) (row : NormRow)
    (policy : PolicyConfig) (accountId : Nat) :
    ∀ c ∈ p4Candidates jw st row policy accountId,
      c.pass = "P4" ∧ ∃ m ∈ st.leads, c.stitchId = m.id ∧
        Rat.divInt 88 100 ≤ calculateSimilarity jw row.name m.name := by
  intro c hc
  unfold p4Candidates at hc
  split at hc
  · obtain ⟨m, hm, hsome⟩ := List.mem_filterMap.mp hc
    obtain ⟨hpass, hsid, hsim⟩ := p4CandidateFor_some jw row policy m c hsome
    exact ⟨hpass, m, (List.mem_filter.mp hm).1, hsid, hsim⟩
  · exact absurd hc (by simp)

/-- Every candidate of the P1 pass carries pass tag `P1`. -/
lemma p1Candidates_pass (st : DB) (row : NormRow) (policy : PolicyConfig)
    (accountId : Nat) :
    ∀ c ∈ p1Candidates st row policy accountId, c.pass = "P1" := by
  intro c hc
  unfold p1Candidates at hc
  cases hk : (generateMatchingKeys row).phone with
  | none => rw [hk] at hc; exact absurd hc (by simp)
  | some k =>
    rw [hk] at hc
    obtain ⟨m, _, hsome⟩ := List.mem_filterMap.mp hc
    exact (p1CandidateFor_some row policy k m c hsome).1

/-- C8: the P4 fuzzy pass never emits a candidate whose case-insensitive
Jaro-Winkler name similarity is below 0.88 — every P4 candidate produced by
`findMatchingStitches` is justified by a lead whose similarity with the
event's name is at least 0.88, for every similarity function, regardless of
location and phone. -/
theorem p4_similarity_threshold (jw : String → String → Rat) (st : DB)
    (row : NormRow) (policy : PolicyConfig) (accountId : Nat)
    (c : MatchCandidate)
    (hc : c ∈ findMatchingStitches jw st row policy accountId)
    (hpass : c.pass = "P4") :
    ∃ lead ∈ st.leads, c.stitchId = lead.id ∧
      Rat.divInt 88 100 ≤ calculateSimilarity jw row.name lead.name := by
  unfold findMatchingStitches at hc
  rcases List.mem_append.mp hc with hc3 | hc4
  · rcases List.mem_append.mp hc3 with hc2 | hcp3
    · rcases List.mem_append.mp hc2 with hcp1 | hcp2
      · have := p1Candidates_pass st row policy accountId c hcp1
        rw [hpass] at this
        exact absurd this (by decide)
      · have := p2Candidates_pass st row policy accountId c hcp2
        rw [hpass] at this
        exact absurd this (by decide)
    · have := p3Candidates_pass st row policy accountId c hcp3
      rw [hpass] at this
      exact absurd this (by decide)
  · exact (p4Candidates_sim jw st row policy accountId c hc4).2

/-- Witness for C8: a concrete P4 candidate, produced with a maximal
similarity function, whose justifying lead indeed reaches the threshold. -/
theorem p4_similarity_threshold_witness :
    (p4CandidateFor jwOne exRowFuzzy exPolicy exLeadFuzzy).getD
        (mkP1Candidate exPolicy exRowFuzzy exLeadFuzzy) ∈
      findMatchingStitches jwOne exDbFuzzy exRowFuzzy exPolicy 7 ∧
    ((p4CandidateFor jwOne exRowFuzzy exPolicy exLeadFuzzy).getD
        (mkP1Candidate exPolicy exRowFuzzy exLeadFuzzy)).pass = "P4" ∧
    (∃ lead ∈ exDbFuzzy.leads,
      ((p4CandidateFor jwOne exRowFuzzy exPolicy exLeadFuzzy).getD
        (mkP1Candidate exPolicy exRowFuzzy exLeadFuzzy)).stitchId = lead.id ∧
      Rat.divInt 88 100 ≤ calculateSimilarity jwOne exRowFuzzy.name lead.name) :=
  ⟨by decide, by decide,
   p4_similarity_threshold jwOne exDbFuzzy exRowFuzzy exPolicy 7 _
     (by decide) (by decide)⟩

/-- C7: for an event with a non-empty phone and an existing lead of the same
account with the identical phone (lead ids distinct), the generator emits
the P1 candidate for that lead exactly when the event time is within
`windows.phone_exact` days of the lead's creation time; in particular a
31-days-later event with a 30-day window produces no P1 candidate (see the
witness). -/
theorem p1_phone_window_iff (jw : String → String → Rat) (st : DB)
    (row : NormRow) (policy : PolicyConfig) (accountId : Nat) (lead : Lead)
    (hnodup : (st.leads.map Lead.id).Nodup)
    (hmem : lead ∈ st.leads) (hacc : lead.accountId = accountId)
    (hphone : row.phone ≠ "") (heq : lead.phone = row.phone) :
    mkP1Candidate policy row lead ∈ findMatchingStitches jw st row policy accountId ↔
      isWithinWindow row.occurredAt lead.leadCreatedAt policy.windows.phone_exact = true := by
  have hkey : (generateMatchingKeys row).phone = some row.phone := by
    simp [generateMatchingKeys, hphone]
  constructor
  · intro hc
    unfold findMatchingStitches at hc
    rcases List.mem_append.mp hc with hc3 | hc4
    · rcases List.mem_append.mp hc3 with hc2 | hcp3
      · rcases List.mem_append.mp hc2 with hcp1 | hcp2
        · unfold p1Candidates at hcp1
          rw [hkey] at hcp1
          obtain ⟨m, hm, hsome⟩ := List.mem_filterMap.mp hcp1
          obtain ⟨_, hsid, hwin⟩ :=
            p1CandidateFor_some row policy row.phone m (mkP1Candidate policy row lead) hsome
          have hmlead : m ∈ st.leads := (List.mem_filter.mp hm).1
          have hid : lead.id = m.id := by
            simpa [mkP1Candidate] using hsid
          have : lead = m :=
            List.inj_on_of_nodup_map hnodup hmem hmlead hid
          rw [this]
          exact hwin
        · have := p2Candidates_pass st row policy accountId _ hcp2
          exact absurd this (by simp [mkP1Candidate])
      · have := p3Candidates_pass st row policy accountId _ hcp3
        exact absurd this (by simp [mkP1Candidate])
    · have := (p4Candidates_sim jw st row policy accountId _ hc4).1
      exact absurd this (by simp [mkP1Candidate])
  · intro hwin
    apply List.mem_append_left
    apply List.mem_append_left
    apply List.mem_append_left
    unfold p1Candidates
    rw [hkey]
    refine List.mem_filterMap.mpr ⟨lead, List.mem_filter.mpr ⟨hmem, ?_⟩, ?_⟩
    · simp [hacc, heq]
    · simp [p1CandidateFor, hwin, mkP1Candidate]

/-- Witness for C7: with the 31-day-late event and a 30-day window the
window check fails, so the equivalence shows no P1 candidate is emitted;
hypotheses are discharged at concrete values. -/
theorem p1_phone_window_iff_witness :
    ((exDb31.leads.map Lead.id).Nodup ∧ exLeadPhone ∈ exDb31.leads ∧
     exLeadPhone.accountId = 7 ∧ exRowPhone31.phone ≠ "" ∧
     exLeadPhone.phone = exRowPhone31.phone) ∧
    (mkP1Candidate exPolicy exRowPhone31 exLeadPhone ∈
        findMatchingStitches jwZero exDb31 exRowPhone31 exPolicy 7 ↔
      isWithinWindow exRowPhone31.occurredAt exLeadPhone.leadCreatedAt
        exPolicy.windows.phone_exact = true) ∧
    isWithinWindow exRowPhone31.occurredAt exLeadPhone.leadCreatedAt
      exPolicy.windows.phone_exact = false :=
  ⟨⟨by decide, by decide, by decide, by decide, by decide⟩,
   p1_phone_window_iff jwZero exDb31 exRowPhone31 exPolicy 7 exLeadPhone
     (by decide) (by decide) (by decide) (by decide) (by decide),
   by decide⟩

/-- The name guard of the validator rejects exactly the values `nameOkB`
refuses. -/
lemma nameGuard_iff (v : Yaml) :
    (¬ v.truthy = true ∨ v.typeName ≠ "string") ↔ nameOkB v = false := by
  cases v <;> simp [Yaml.truthy, Yaml.typeName, nameOkB]

/-- The mode guard of the validator rejects exactly the values
`isRecognizedMode` refuses (a recognized mode string is never falsy). -/
lemma modeGuard_iff (v : Yaml) :
    (¬ v.truthy = true ∨ ¬ isRecognizedMode v = true) ↔
      isRecognizedMode v = false := by
  cases v with
  | str s =>
    simp only [Yaml.truthy, isRecognizedMode]
    constructor
    · rintro (hs | hs)
      · simp only [ne_eq, decide_eq_true_eq, Decidable.not_not] at hs
        subst hs
        decide
      · simpa using hs
    · intro h
      exact .inr (by simpa using h)
  | null => simp [Yaml.truthy, isRecognizedMode]
  | bool b => simp [Yaml.truthy, isRecognizedMode]
  | num q => simp [Yaml.truthy, isRecognizedMode]
  | arr items => simp [Yaml.truthy, isRecognizedMode]
  | map entries => simp [Yaml.truthy, isRecognizedMode]

/-- The object guard of the validator rejects exactly the values `objOkB`
refuses. -/
lemma objGuard_iff (v : Yaml) :
    (¬ v.truthy = true ∨ v.typeName ≠ "object") ↔ objOkB v = false := by
  cases v <;> simp [Yaml.truthy, Yaml.typeName, objOkB]

/-- C5 counterexample: a document whose `windows` entry is a YAML sequence
(not a map) is accepted by `validatePolicyYaml`, although by the claim's
conditions (a missing windows map) parsing should fail. -/
theorem validatePolicyYaml_accepts_sequence_windows :
    (validatePolicyYaml exDocSeqWindows).isOk = true ∧
    policyDocWellFormedSpec exDocSeqWindows = false := by
  decide

/-- C5 amended: parsing succeeds exactly when the document is a map with a
well-formed (non-empty string) name, an `attribution_mode` among the five
enumerated values, and truthy object-typed (map or sequence) `windows` and
`weights` values; all other keys are ignored, and parsing is a pure
function. -/
theorem validatePolicyYaml_isOk_iff (doc : Yaml) :
    (validatePolicyYaml doc).isOk = policyDocWellFormedAmended doc := by
  cases doc with
  | null => rfl
  | bool b => rfl
  | num q => rfl
  | str s => rfl
  | arr items => rfl
  | map entries =>
    simp only [validatePolicyYaml, jsGet, policyDocWellFormedAmended]
    by_cases g1 : (¬ (lookupOrNull entries "name").truthy = true ∨
        (lookupOrNull entries "name").typeName ≠ "string")
    · rw [if_pos g1, (nameGuard_iff _).mp g1]
      simp only [Bool.false_and]
      rfl
    · rw [if_neg g1]
      have h1 : nameOkB (lookupOrNull entries "name") = true := by
        rcases Bool.eq_false_or_eq_true (nameOkB (lookupOrNull entries "name")) with h | h
        · exact h
        · exact absurd ((nameGuard_iff _).mpr h) g1
      rw [h1]
      by_cases g2 : (¬ (lookupOrNull entries "attribution_mode").truthy = true ∨
          ¬ isRecognizedMode (lookupOrNull entries "attribution_mode") = true)
      · rw [if_pos g2, (modeGuard_iff _).mp g2]
        simp only [Bool.false_and, Bool.true_and]
        rfl
      · rw [if_neg g2]
        have h2 : isRecognizedMode (lookupOrNull entries "attribution_mode") = true := by
          rcases Bool.eq_false_or_eq_true
            (isRecognizedMode (lookupOrNull entries "attribution_mode")) with h | h
          · exact h
          · exact absurd ((modeGuard_iff _).mpr h) g2
        rw [h2]
        by_cases g3 : (¬ (lookupOrNull entries "windows").truthy = true ∨
            (lookupOrNull entries "windows").typeName ≠ "object")
        · rw [if_pos g3, (objGuard_iff _).mp g3]
          simp only [Bool.false_and, Bool.true_and]
          rfl
        · rw [if_neg g3]
          have h3 : objOkB (lookupOrNull entries "windows") = true := by
            rcases Bool.eq_false_or_eq_true (objOkB (lookupOrNull entries "windows")) with h | h
            · exact h
            · exact absurd ((objGuard_iff _).mpr h) g3
          rw [h3]
          by_cases g4 : (¬ (lookupOrNull entries "weights").truthy = true ∨
              (lookupOrNull entries "weights").typeName ≠ "object")
          · rw [if_pos g4, (objGuard_iff _).mp g4]
            simp only [Bool.false_and, Bool.true_and]
            rfl
          · rw [if_neg g4]
            have h4 : objOkB (lookupOrNull entries "weights") = true := by
              rcases Bool.eq_false_or_eq_true (objOkB (lookupOrNull entries "weights")) with h | h
              · exact h
              · exact absurd ((objGuard_iff _).mpr h) g4
            rw [h4]
            simp only [Bool.true_and]
            rfl

end LeadStitcher
